import Mathlib

/-!
Verification of the shipitd tunneling agent core: the binary frame codec
(`pkg/types/message.go`, `internal/protocol/reader.go`), the connection pool
selector, the demultiplexer dispatch, the HTTP forwarder, the reconnect path
and the heartbeat task.  Go byte slices are modelled as `List Nat` (every value
the code stores is below 256), fallible operations return `Option`, and the
ambient effects of each stateful operation (local HTTP outcome, clock ticks,
connect results) are passed as explicit arguments.
-/

namespace Shipitd

/-- A wire byte; the Go code only ever stores values below 256 in these. -/
abbrev Byte := Nat

/-- Wire message, from `Message` in `pkg/types/message.go`.  The `Timestamp`
field is stamped from the local clock on construction and never serialized,
so it is not part of the wire model. -/
structure Message where
  type : Nat
  tunnelID : List Byte
  payload : List Byte
deriving DecidableEq

/-- `binary.BigEndian.PutUint32`: the four big-endian bytes of `n`
(after the Go `uint32` truncation, which each byte expression realizes). -/
def putUint32 (n : Nat) : List Byte :=
  [n / 16777216 % 256, n / 65536 % 256, n / 256 % 256, n % 256]

/-- `binary.BigEndian.Uint32` on a 4-byte slice. -/
def beUint32 : List Byte → Nat
  | [b0, b1, b2, b3] => b0 * 16777216 + b1 * 65536 + b2 * 256 + b3
  | _ => 0

/-- The 16-byte tunnel-id region written by `Message.Serialize`: the id's
bytes truncated to 16, copied into a zero-filled 16-byte buffer
(hence right-zero-padded when shorter). -/
def pad16 (tid : List Byte) : List Byte :=
  tid.take 16 ++ List.replicate (16 - tid.length) 0

/-- `bytes.TrimRight(b, "\x00")`: strip every trailing zero byte. -/
def trimRightZeros (l : List Byte) : List Byte :=
  (l.reverse.dropWhile (fun b => b == 0)).reverse

/-- `Message.Serialize`: `type(1) | tunnel_id(16) | payload_size(4, BE) | payload`. -/
def serialize (m : Message) : List Byte :=
  m.type % 256 :: (pad16 m.tunnelID ++ (putUint32 m.payload.length ++ m.payload))

/-- `Message.Deserialize`: fails (`none`) on fewer than 21 bytes and on a
truncated payload; the tunnel id is the 16-byte region with trailing NUL
bytes stripped. -/
def deserialize (data : List Byte) : Option Message :=
  if data.length < 21 then none
  else if data.length < 21 + beUint32 ((data.drop 17).take 4) then none
  else some
    { type := data.headD 0
      tunnelID := trimRightZeros ((data.drop 1).take 16)
      payload := (data.drop 21).take (beUint32 ((data.drop 17).take 4)) }

/-- `Reader.ReadMessage` in `internal/protocol/reader.go`, over a byte stream:
read 21 header bytes (fail if fewer), take the tunnel-id field and drop only
its final byte (`[:len(tunnelID)-1]` in the source — the NUL padding is kept),
then read exactly the declared number of payload bytes.  No size limit is
applied to the declared payload size. -/
def readMessage (s : List Byte) : Option Message :=
  if s.length < 21 then none
  else if (s.drop 21).length < beUint32 ((s.drop 17).take 4) then none
  else some
    { type := s.headD 0
      tunnelID := ((s.drop 1).take 16).take 15
      payload := (s.drop 21).take (beUint32 ((s.drop 17).take 4)) }

/-! ## Codec lemmas -/

theorem pad16_length (tid : List Byte) : (pad16 tid).length = 16 := by
  simp only [pad16, List.length_append, List.length_take, List.length_replicate]
  omega

theorem putUint32_length (n : Nat) : (putUint32 n).length = 4 := rfl

theorem beUint32_putUint32 (n : Nat) (h : n < 4294967296) :
    beUint32 (putUint32 n) = n := by
  simp only [putUint32, beUint32]
  omega

theorem dropWhile_zeros_replicate (k : Nat) (l : List Byte) :
    List.dropWhile (fun b => b == 0) (List.replicate k 0 ++ l) =
      List.dropWhile (fun b => b == 0) l := by
  induction k with
  | zero => rfl
  | succ k ih => simp [List.replicate_succ, ih]

theorem dropWhile_zeros_reverse (l : List Byte) (h : l.getLast? ≠ some 0) :
    List.dropWhile (fun b => b == 0) l.reverse = l.reverse := by
  rcases hrev : l.reverse with _ | ⟨a, t⟩
  · rfl
  · have ha : a ≠ 0 := by
      intro ha0
      apply h
      rw [← List.head?_reverse, hrev, ha0]
      rfl
    simp [List.dropWhile_cons, ha]

theorem trimRightZeros_append_replicate (l : List Byte) (k : Nat)
    (h : l.getLast? ≠ some 0) :
    trimRightZeros (l ++ List.replicate k 0) = l := by
  unfold trimRightZeros
  rw [List.reverse_append, List.reverse_replicate, dropWhile_zeros_replicate,
    dropWhile_zeros_reverse l h, List.reverse_reverse]

theorem trimRightZeros_pad16 (tid : List Byte) (hlen : tid.length ≤ 16)
    (hlast : tid.getLast? ≠ some 0) :
    trimRightZeros (pad16 tid) = tid := by
  unfold pad16
  rw [List.take_of_length_le hlen, trimRightZeros_append_replicate tid _ hlast]

theorem serialize_length (m : Message) :
    (serialize m).length = 21 + m.payload.length := by
  simp only [serialize, List.length_cons, List.length_append, pad16_length,
    putUint32_length]
  omega

/-- Claim C1: frame codec round-trip.  For every well-formed frame — message
type a byte, tunnel id of at most 16 bytes with no trailing NUL bytes, payload
shorter than `2^32` — `Message.Deserialize` applied to the output of
`Message.Serialize` recovers the original message, byte-identically in each
field. -/
theorem serialize_deserialize_roundtrip (m : Message)
    (htype : m.type < 256)
    (hlen : m.tunnelID.length ≤ 16)
    (hlast : m.tunnelID.getLast? ≠ some 0)
    (hpay : m.payload.length < 4294967296) :
    deserialize (serialize m) = some m := by
  have hdrop1 : (serialize m).drop 1 =
      pad16 m.tunnelID ++ (putUint32 m.payload.length ++ m.payload) := rfl
  have hdrop17 : (serialize m).drop 17 = putUint32 m.payload.length ++ m.payload := by
    have : (serialize m).drop 17 =
        (pad16 m.tunnelID ++ (putUint32 m.payload.length ++ m.payload)).drop 16 := rfl
    rw [this, List.drop_append_of_le_length (by rw [pad16_length]),
      List.drop_eq_nil_of_le (pad16_length _).le, List.nil_append]
  have hdrop21 : (serialize m).drop 21 = m.payload := by
    have : (serialize m).drop 21 = ((serialize m).drop 17).drop 4 := by
      rw [List.drop_drop]
    rw [this, hdrop17, List.drop_append_of_le_length (by rw [putUint32_length]),
      List.drop_eq_nil_of_le (putUint32_length _).le, List.nil_append]
  have hsize : beUint32 (((serialize m).drop 17).take 4) = m.payload.length := by
    rw [hdrop17, List.take_append_of_le_length (by rw [putUint32_length]),
      List.take_of_length_le (le_of_eq (putUint32_length _)),
      beUint32_putUint32 _ hpay]
  have htid : ((serialize m).drop 1).take 16 = pad16 m.tunnelID := by
    rw [hdrop1, List.take_append_of_le_length (by rw [pad16_length]),
      List.take_of_length_le (le_of_eq (pad16_length _))]
  unfold deserialize
  rw [serialize_length, hsize, htid, hdrop21]
  rw [if_neg (by omega), if_neg (by omega)]
  have hhead : (serialize m).headD 0 = m.type % 256 := rfl
  rw [hhead, Nat.mod_eq_of_lt htype, trimRightZeros_pad16 m.tunnelID hlen hlast,
    List.take_of_length_le (le_refl _)]

/-- Witness for C1 at a concrete frame: type 2, tunnel id `"test"`,
payload `"hi"`. -/
theorem serialize_deserialize_roundtrip_witness :
    ((2 : Nat) < 256 ∧ ([116, 101, 115, 116] : List Byte).length ≤ 16 ∧
      ([116, 101, 115, 116] : List Byte).getLast? ≠ some 0 ∧
      ([104, 105] : List Byte).length < 4294967296) ∧
    deserialize (serialize ⟨2, [116, 101, 115, 116], [104, 105]⟩) =
      some ⟨2, [116, 101, 115, 116], [104, 105]⟩ :=
  ⟨by decide,
    serialize_deserialize_roundtrip ⟨2, [116, 101, 115, 116], [104, 105]⟩
      (by decide) (by decide) (by decide) (by decide)⟩

/-! ## Reader path (`Reader.ReadMessage`) -/

theorem readMessage_frame_eq (t : Nat) (tid payload : List Byte)
    (ht : tid.length = 16) (hp : payload.length < 4294967296) :
    readMessage (t :: (tid ++ (putUint32 payload.length ++ payload))) =
      some ⟨t, tid.take 15, payload⟩ := by
  have hlen : (t :: (tid ++ (putUint32 payload.length ++ payload))).length =
      21 + payload.length := by
    simp only [List.length_cons, List.length_append, ht, putUint32_length]
    omega
  have hdrop17 : (t :: (tid ++ (putUint32 payload.length ++ payload))).drop 17 =
      putUint32 payload.length ++ payload := by
    have h16 : (t :: (tid ++ (putUint32 payload.length ++ payload))).drop 17 =
        (tid ++ (putUint32 payload.length ++ payload)).drop 16 := rfl
    rw [h16, List.drop_append_of_le_length (by rw [ht]),
      List.drop_eq_nil_of_le ht.le, List.nil_append]
  have hdrop21 : (t :: (tid ++ (putUint32 payload.length ++ payload))).drop 21 =
      payload := by
    have h4 : (t :: (tid ++ (putUint32 payload.length ++ payload))).drop 21 =
        ((t :: (tid ++ (putUint32 payload.length ++ payload))).drop 17).drop 4 := by
      rw [List.drop_drop]
    rw [h4, hdrop17, List.drop_append_of_le_length (by rw [putUint32_length]),
      List.drop_eq_nil_of_le (putUint32_length _).le, List.nil_append]
  have hsize : beUint32
      (((t :: (tid ++ (putUint32 payload.length ++ payload))).drop 17).take 4) =
      payload.length := by
    rw [hdrop17, List.take_append_of_le_length (by rw [putUint32_length]),
      List.take_of_length_le (putUint32_length _).le, beUint32_putUint32 _ hp]
  have htid : ((t :: (tid ++ (putUint32 payload.length ++ payload))).drop 1).take 16 =
      tid := by
    have h1 : (t :: (tid ++ (putUint32 payload.length ++ payload))).drop 1 =
        tid ++ (putUint32 payload.length ++ payload) := rfl
    rw [h1, List.take_append_of_le_length (by rw [ht]),
      List.take_of_length_le ht.le]
  unfold readMessage
  rw [hsize, hdrop21, htid, hlen]
  rw [if_neg (by omega), if_neg (by omega), List.take_length]
  rfl

/-- Claim C3 (code bug): the reader decode path does not strip the NUL
padding.  For tunnel id `"abc"` (bytes 97 98 99) encoded by
`Message.Serialize`, `Reader.ReadMessage` yields the first 15 bytes of the
16-byte field — `"abc"` followed by twelve NUL bytes — while
`Message.Deserialize` on the very same frame yields `"abc"` as specified. -/
theorem readMessage_keeps_nul_padding :
    (readMessage (serialize ⟨2, [97, 98, 99], []⟩)).map Message.tunnelID =
      some [97, 98, 99, 0, 0, 0, 0, 0, 0, 0, 0, 0, 0, 0, 0] ∧
    (deserialize (serialize ⟨2, [97, 98, 99], []⟩)).map Message.tunnelID =
      some [97, 98, 99] ∧
    ([97, 98, 99, 0, 0, 0, 0, 0, 0, 0, 0, 0, 0, 0, 0] : List Byte) ≠
      [97, 98, 99] := by
  decide

/-- Counterexample to claim C4: a frame whose header declares
`payload_size = 16777217 > 16 MiB` is decoded successfully by
`Reader.ReadMessage` — no `FrameTooLarge` failure exists in the code. -/
theorem readMessage_accepts_oversized_frame :
    readMessage (2 :: (pad16 [116] ++
        (putUint32 16777217 ++ List.replicate 16777217 0))) =
      some ⟨2, (pad16 [116]).take 15, List.replicate 16777217 0⟩ ∧
    16777216 < 16777217 := by
  refine ⟨?_, by omega⟩
  have hp : (List.replicate (16777217 : Nat) (0 : Byte)).length < 4294967296 := by
    rw [List.length_replicate]
    omega
  have h := readMessage_frame_eq 2 (pad16 [116]) (List.replicate 16777217 0)
    (pad16_length _) hp
  rw [List.length_replicate] at h
  exact h

/-- Claim C4 (amended): `Reader.ReadMessage` applies no frame-size limit.
For every header declaring any `payload_size` (below `2^32`), when that many
payload bytes follow, the frame is decoded in full; there is no
`FrameTooLarge` error. -/
theorem readMessage_no_size_limit (t : Nat) (tid payload : List Byte)
    (ht : tid.length = 16) (hp : payload.length < 4294967296) :
    readMessage (t :: (tid ++ (putUint32 payload.length ++ payload))) =
      some ⟨t, tid.take 15, payload⟩ :=
  readMessage_frame_eq t tid payload ht hp

/-- Witness for C4's amended theorem at a one-byte payload. -/
theorem readMessage_no_size_limit_witness :
    ((List.replicate 16 (7 : Nat)).length = 16 ∧
      ([5] : List Byte).length < 4294967296) ∧
    readMessage (1 :: (List.replicate 16 7 ++
        (putUint32 ([5] : List Byte).length ++ [5]))) =
      some ⟨1, (List.replicate 16 (7 : Nat)).take 15, [5]⟩ :=
  ⟨⟨by decide, by decide⟩,
    readMessage_no_size_limit 1 (List.replicate 16 7) [5] (by decide) (by decide)⟩

/-! ## Connection pool (`ConnectionPool.GetConnection`) -/

/-- One pooled TLS link, `Connection` in the pool source.  Only the fields the
selector reads are modelled; the socket halves and timestamps are omitted. -/
structure Conn where
  id : String
  isHealthy : Bool
deriving DecidableEq

/-- `getD` default; never selected because the round-robin index is always in
bounds. -/
def defaultConn : Conn := { id := "", isHealthy := false }

/-- Pool state read and written by `GetConnection`. -/
structure ConnectionPool where
  connections : List Conn
  roundRobin : Nat
deriving DecidableEq

/-- `ConnectionPool.GetConnection`: error (`none`) on an empty pool; otherwise
advance the round-robin index over the whole connection list (healthy or not)
and return the link at that index only if it is healthy — an unhealthy
selection is an error, even when other links are healthy. -/
def getConnection (cp : ConnectionPool) : Option Conn × ConnectionPool :=
  if cp.connections.length = 0 then
    (none, cp)
  else if (cp.connections.getD ((cp.roundRobin + 1) % cp.connections.length)
      defaultConn).isHealthy = false then
    (none, { cp with roundRobin := (cp.roundRobin + 1) % cp.connections.length })
  else
    (some (cp.connections.getD ((cp.roundRobin + 1) % cp.connections.length)
        defaultConn),
      { cp with roundRobin := (cp.roundRobin + 1) % cp.connections.length })

/-- Counterexample to claim C5: a pool holding a healthy link (`conn_a`) still
fails acquisition when the round-robin index lands on the unhealthy `conn_b` —
selection is not over the healthy subset. -/
theorem getConnection_skips_healthy_link :
    (getConnection ⟨[⟨"conn_a", true⟩, ⟨"conn_b", false⟩], 0⟩).1 = none ∧
    (⟨"conn_a", true⟩ : Conn) ∈
      ([⟨"conn_a", true⟩, ⟨"conn_b", false⟩] : List Conn) ∧
    (⟨"conn_a", true⟩ : Conn).isHealthy = true := by
  decide

/-- Claim C5 (amended): `GetConnection` advances the round-robin index over
the whole link list and succeeds exactly when the link at the new index is
healthy, returning that link; when that link is unhealthy it fails even if
other healthy links exist (the counterexample), and it fails on an empty
pool. -/
theorem getConnection_selected_healthy (cp : ConnectionPool)
    (h0 : cp.connections.length ≠ 0)
    (hh : (cp.connections.getD ((cp.roundRobin + 1) % cp.connections.length)
      defaultConn).isHealthy = true) :
    (getConnection cp).1 =
      some (cp.connections.getD ((cp.roundRobin + 1) % cp.connections.length)
        defaultConn) ∧
    (getConnection cp).2.roundRobin =
      (cp.roundRobin + 1) % cp.connections.length := by
  unfold getConnection
  rw [if_neg h0, if_neg (by rw [hh]; exact fun hf => Bool.noConfusion hf)]
  exact ⟨rfl, rfl⟩

/-- Witness for C5's amended theorem on a two-link pool whose selected index
holds a healthy link. -/
theorem getConnection_selected_healthy_witness :
    (([⟨"conn_a", false⟩, ⟨"conn_b", true⟩] : List Conn).length ≠ 0 ∧
      (([⟨"conn_a", false⟩, ⟨"conn_b", true⟩] : List Conn).getD
        ((0 + 1) % ([⟨"conn_a", false⟩, ⟨"conn_b", true⟩] : List Conn).length)
        defaultConn).isHealthy = true) ∧
    ((getConnection ⟨[⟨"conn_a", false⟩, ⟨"conn_b", true⟩], 0⟩).1 =
      some (([⟨"conn_a", false⟩, ⟨"conn_b", true⟩] : List Conn).getD
        ((0 + 1) % ([⟨"conn_a", false⟩, ⟨"conn_b", true⟩] : List Conn).length)
        defaultConn) ∧
    (getConnection ⟨[⟨"conn_a", false⟩, ⟨"conn_b", true⟩], 0⟩).2.roundRobin =
      (0 + 1) % ([⟨"conn_a", false⟩, ⟨"conn_b", true⟩] : List Conn).length) :=
  ⟨⟨by decide, by decide⟩,
    getConnection_selected_healthy ⟨[⟨"conn_a", false⟩, ⟨"conn_b", true⟩], 0⟩
      (by decide) (by decide)⟩

/-- Claim C6: the pool health invariant.  `GetConnection` never returns a link
whose healthy flag is false: whenever it returns a link at all, that link's
`IsHealthy` was true (the unhealthy-selection branch returns an error
instead). -/
theorem getConnection_never_returns_unhealthy (cp : ConnectionPool) (c : Conn)
    (h : (getConnection cp).1 = some c) : c.isHealthy = true := by
  unfold getConnection at h
  split at h
  · exact absurd h (by simp)
  · split at h
    · exact absurd h (by simp)
    · rename_i hb
      have hc := Option.some.inj h
      rw [← hc]
      exact eq_true_of_ne_false hb

/-- Witness for C6 on a singleton healthy pool. -/
theorem getConnection_never_returns_unhealthy_witness :
    ((getConnection ⟨[⟨"conn_a", true⟩], 0⟩).1 = some ⟨"conn_a", true⟩) ∧
    (⟨"conn_a", true⟩ : Conn).isHealthy = true :=
  ⟨by decide,
    getConnection_never_returns_unhealthy ⟨[⟨"conn_a", true⟩], 0⟩
      ⟨"conn_a", true⟩ (by decide)⟩

/-! ## Demultiplexer (`TunnelManager.handleMessage` / `processMessages`) -/

/-- The action `handleMessage` takes on one frame, read off its switch:
types 2, 7, 6, 5 are dispatched to their handlers; every other type — 1, 3, 4
included — falls to the default branch, which only logs an unknown-type
warning.  Nothing in the source marks the link unhealthy or stops the read
loop on an unknown type. -/
inductive DemuxAction where
  | dataForward (m : Message)
  | acknowledge (m : Message)
  | errorMsg (m : Message)
  | heartbeat (m : Message)
  | warnUnknown (t : Nat)
deriving DecidableEq

/-- `TunnelManager.handleMessage` dispatch switch. -/
def handleMessage (m : Message) : DemuxAction :=
  if m.type = 2 then .dataForward m
  else if m.type = 7 then .acknowledge m
  else if m.type = 6 then .errorMsg m
  else if m.type = 5 then .heartbeat m
  else .warnUnknown m.type

/-- `TunnelManager.processMessages`: the loop hands every received message to
`handleMessage` and continues; it exits only on a read error or context
cancellation, never because of a message's type.  Over a finite trace of
received messages the performed actions are therefore their pointwise
dispatch. -/
def processMessages (msgs : List Message) : List DemuxAction :=
  msgs.map handleMessage

/-- Counterexample to claim C7: a frame of type 0 (outside 1..7) is answered
with a warning action only, and the following type-2 frame is still
dispatched — the demultiplexer neither marks the link unhealthy nor exits. -/
theorem unknown_type_does_not_stop_demux :
    processMessages [⟨0, [116], []⟩, ⟨2, [116], []⟩] =
      [.warnUnknown 0, .dataForward ⟨2, [116], []⟩] := by
  decide

/-- Claim C7 (amended): a frame whose type byte is outside the handled set
{2, 7, 6, 5} — in particular outside {1..7} — is merely logged as unknown;
the loop length is preserved (every subsequent frame is still processed) and
the warning action appears in the trace. -/
theorem unknown_type_warn_and_continue (msgs : List Message) (m : Message)
    (hm : m ∈ msgs) (h : m.type ∉ ([2, 7, 6, 5] : List Nat)) :
    handleMessage m = .warnUnknown m.type ∧
    (processMessages msgs).length = msgs.length ∧
    DemuxAction.warnUnknown m.type ∈ processMessages msgs := by
  simp only [List.mem_cons, List.mem_singleton, not_or] at h
  obtain ⟨h2, h7, h6, h5, -⟩ := h
  have hdispatch : handleMessage m = .warnUnknown m.type := by
    unfold handleMessage
    rw [if_neg h2, if_neg h7, if_neg h6, if_neg h5]
  refine ⟨hdispatch, List.length_map _ _, ?_⟩
  rw [← hdispatch]
  exact List.mem_map_of_mem handleMessage hm

/-- Witness for C7's amended theorem at a single type-0 frame. -/
theorem unknown_type_warn_and_continue_witness :
    ((⟨0, [], []⟩ : Message) ∈ [(⟨0, [], []⟩ : Message)] ∧
      (0 : Nat) ∉ ([2, 7, 6, 5] : List Nat)) ∧
    (handleMessage ⟨0, [], []⟩ = .warnUnknown 0 ∧
      (processMessages [⟨0, [], []⟩]).length = [(⟨0, [], []⟩ : Message)].length ∧
      DemuxAction.warnUnknown 0 ∈ processMessages [⟨0, [], []⟩]) :=
  ⟨⟨by decide, by decide⟩,
    unknown_type_warn_and_continue [⟨0, [], []⟩] ⟨0, [], []⟩
      (by decide) (by decide)⟩

/-! ## HTTP forwarder (`HTTPProxy.HandleRequest`) -/

/-- `DataForwardPayload` from `pkg/types/message.go`. -/
structure DataForwardPayload where
  connectionID : String
  requestID : String
  data : String
  headers : List (String × String)
  method : String
  path : String
deriving DecidableEq

/-- `DataResponsePayload` from `pkg/types/message.go`. -/
structure DataResponsePayload where
  connectionID : String
  requestID : String
  data : String
  statusCode : Nat
  headers : List (String × String)
deriving DecidableEq

/-- The outcome of the three fallible external steps of `HandleRequest`:
`http.NewRequest` construction, `client.Do` (local dial / round trip), and
`io.ReadAll` on the response body.  A successful round trip carries the local
service's status, headers (multi-valued, as `http.Header`) and body. -/
inductive LocalOutcome where
  | buildFailure
  | dialFailure
  | readFailure (status : Nat) (hdrs : List (String × List String))
  | success (status : Nat) (hdrs : List (String × List String)) (body : String)

/-- `HTTPProxy.createErrorResponse`: a synthetic JSON error response carrying
the request's ids, body `\x7b"error": "<message>", "status": <code>\x7d`
(note the space after each colon in the `fmt.Sprintf` format string) and a
`Content-Type: application/json` header. -/
def createErrorResponse (req : DataForwardPayload) (statusCode : Nat)
    (message : String) : DataResponsePayload :=
  { connectionID := req.connectionID
    requestID := req.requestID
    data := "\x7b\"error\": \"" ++ message ++ "\", \"status\": " ++
      toString statusCode ++ "\x7d"
    statusCode := statusCode
    headers := [("Content-Type", "application/json")] }

/-- The header conversion in `HandleRequest`: take the first value of each
non-empty header entry. -/
def firstHeaderValues (hdrs : List (String × List String)) :
    List (String × String) :=
  hdrs.filterMap fun kv =>
    match kv.2 with
    | [] => none
    | v :: _ => some (kv.1, v)

/-- `HTTPProxy.HandleRequest`: every branch returns a response with a `nil`
error (`none`) — request-construction failure yields a synthetic 500, dial
failure a synthetic 502, body-read failure a synthetic 500, and success the
local service's status, first-valued headers and body. -/
def handleRequest (req : DataForwardPayload) (outcome : LocalOutcome) :
    DataResponsePayload × Option String :=
  match outcome with
  | .buildFailure => (createErrorResponse req 500 "Failed to create request", none)
  | .dialFailure =>
    (createErrorResponse req 502 "Failed to connect to local service", none)
  | .readFailure _ _ =>
    (createErrorResponse req 500 "Failed to read response", none)
  | .success status hdrs body =>
    ({ connectionID := req.connectionID
       requestID := req.requestID
       data := body
       statusCode := status
       headers := firstHeaderValues hdrs }, none)

/-- Claim C2: for every `DataForward` payload and every outcome of the local
round trip, `HandleRequest` returns exactly one `DataResponse` (it is a total
function into a single response), the returned error is always `nil`, and the
response carries the request's `request_id` and `connection_id` unchanged —
so each call emits at most (exactly) one `DataResponse` for its request id. -/
theorem handleRequest_total_one_response (req : DataForwardPayload)
    (outcome : LocalOutcome) :
    (handleRequest req outcome).2 = none ∧
    (handleRequest req outcome).1.requestID = req.requestID ∧
    (handleRequest req outcome).1.connectionID = req.connectionID := by
  cases outcome <;> exact ⟨rfl, rfl, rfl⟩

/-- Counterexample to claim C8: the dial-failure body is not byte-identical
to `\x7b"error":"Failed to connect to local service","status":502\x7d` — the
`fmt.Sprintf` format places a space after each colon. -/
theorem dial_failure_body_not_exact :
    (handleRequest ⟨"conn-123", "req-456", "", [], "GET", "/"⟩
        .dialFailure).1.data ≠
      "\x7b\"error\":\"Failed to connect to local service\",\"status\":502\x7d" ∧
    (handleRequest ⟨"conn-123", "req-456", "", [], "GET", "/"⟩
        .dialFailure).1.statusCode = 502 := by
  constructor
  · decide
  · rfl

/-- Claim C8 (amended): on local dial failure the forwarder emits a synthetic
`DataResponse` with status 502, `Content-Type: application/json`, the
request's ids, and body exactly
`\x7b"error": "Failed to connect to local service", "status": 502\x7d`
(with a space after each colon). -/
theorem dial_failure_synthetic_502 (req : DataForwardPayload) :
    (handleRequest req .dialFailure).2 = none ∧
    (handleRequest req .dialFailure).1.statusCode = 502 ∧
    (handleRequest req .dialFailure).1.data =
      "\x7b\"error\": \"Failed to connect to local service\", \"status\": 502\x7d" ∧
    (handleRequest req .dialFailure).1.headers =
      [("Content-Type", "application/json")] ∧
    (handleRequest req .dialFailure).1.connectionID = req.connectionID ∧
    (handleRequest req .dialFailure).1.requestID = req.requestID := by
  refine ⟨rfl, rfl, ?_, rfl, rfl, rfl⟩
  have h : (handleRequest req .dialFailure).1.data =
      "\x7b\"error\": \"" ++ "Failed to connect to local service" ++
        "\", \"status\": " ++ toString (502 : Nat) ++ "\x7d" := rfl
  rw [h]
  decide

/-! ## Heartbeat task (`DataPlaneClient.StartHeartbeat` / `SendHeartbeat`) -/

/-- `HeartbeatPayload` from `pkg/types/message.go` (Go `int` fields modelled
as `Int`). -/
structure HeartbeatPayload where
  timestamp : Int
  activeConns : Int
  totalRequests : Int
deriving DecidableEq

/-- The payload built by `DataPlaneClient.SendHeartbeat`; `now` stands for
`time.Now().Unix()`. -/
def sendHeartbeat (now activeConns totalRequests : Int) : HeartbeatPayload :=
  { timestamp := now, activeConns := activeConns, totalRequests := totalRequests }

/-- `DataPlaneClient.StartHeartbeat`: at every ticker tick the task calls
`SendHeartbeat(tunnelID, 0, 0)` with both counters hard-coded to zero; over a
finite trace of tick clock readings this is the list of emitted payloads. -/
def startHeartbeat (tickTimes : List Int) : List HeartbeatPayload :=
  tickTimes.map fun now => sendHeartbeat now 0 0

/-- Claim C10: every heartbeat the periodic task emits carries
`active_conns = 0` and `total_requests = 0`; only the timestamp (the tick's
clock reading) varies. -/
theorem heartbeat_counters_always_zero (tickTimes : List Int)
    (p : HeartbeatPayload) (hp : p ∈ startHeartbeat tickTimes) :
    p.activeConns = 0 ∧ p.totalRequests = 0 ∧ p.timestamp ∈ tickTimes := by
  rcases List.mem_map.mp hp with ⟨now, hnow, rfl⟩
  exact ⟨rfl, rfl, hnow⟩

/-- Witness for C10 at a single tick. -/
theorem heartbeat_counters_always_zero_witness :
    ((⟨1700000000, 0, 0⟩ : HeartbeatPayload) ∈ startHeartbeat [1700000000]) ∧
    ((⟨1700000000, 0, 0⟩ : HeartbeatPayload).activeConns = 0 ∧
      (⟨1700000000, 0, 0⟩ : HeartbeatPayload).totalRequests = 0 ∧
      (⟨1700000000, 0, 0⟩ : HeartbeatPayload).timestamp ∈
        ([1700000000] : List Int)) :=
  ⟨by decide,
    heartbeat_counters_always_zero [1700000000] ⟨1700000000, 0, 0⟩ (by decide)⟩

/-! ## Reconnect path (`TunnelManager.reconnectTunnel`, `config.DefaultConfig`) -/

/-- `config.ConnectionConfig`; durations are Go `time.Duration` nanoseconds. -/
structure ConnectionConfig where
  poolSize : Nat
  heartbeatInterval : Nat
  reconnectInterval : Nat
  maxReconnectAttempts : Nat
  connectionTimeout : Nat
deriving DecidableEq

/-- The `Connection` section of `config.DefaultConfig()`. -/
def defaultConnectionConfig : ConnectionConfig :=
  { poolSize := 10
    heartbeatInterval := 30000000000
    reconnectInterval := 5000000000
    maxReconnectAttempts := 10
    connectionTimeout := 30000000000 }

/-- The tunnel lifecycle states of `internal/client` (`TunnelState`). -/
inductive TState where
  | initializing
  | creating
  | connecting
  | registering
  | active
  | error
  | disconnected
deriving DecidableEq

/-- What one run of `TunnelManager.reconnectTunnel` did: how long it slept,
how many connection attempts it made, and the state it left the tunnel in
(`none` when the tunnel was not found and no state was written). -/
structure ReconnectResult where
  sleptFor : Nat
  connectAttempts : Nat
  finalState : Option TState
deriving DecidableEq

/-- `TunnelManager.reconnectTunnel`: if the tunnel is found, disconnect, sleep
exactly one `ReconnectInterval`, and make a single `Connect` attempt; a failed
connect or a failed re-registration writes the terminal `error` state, success
writes `active`.  `MaxReconnectAttempts` is never read and the delay never
grows. -/
def reconnectTunnel (cfg : ConnectionConfig)
    (tunnelFound connectFails registerFails : Bool) : ReconnectResult :=
  if tunnelFound = false then
    { sleptFor := 0, connectAttempts := 0, finalState := none }
  else if connectFails then
    { sleptFor := cfg.reconnectInterval, connectAttempts := 1,
      finalState := some .error }
  else if registerFails then
    { sleptFor := cfg.reconnectInterval, connectAttempts := 1,
      finalState := some .error }
  else
    { sleptFor := cfg.reconnectInterval, connectAttempts := 1,
      finalState := some .active }

/-- Counterexample to claim C9: with the default configuration
(`max_reconnect_attempts = 10`) and a failing connect, the tunnel reaches the
terminal `error` state after a single attempt and a single fixed 5 s sleep —
not after ten exponentially backed-off attempts. -/
theorem reconnect_error_after_single_attempt :
    reconnectTunnel defaultConnectionConfig true true false =
      { sleptFor := 5000000000, connectAttempts := 1,
        finalState := some .error } ∧
    defaultConnectionConfig.maxReconnectAttempts = 10 ∧ (1 : Nat) ≠ 10 := by
  decide

/-- Claim C9 (amended): after a link failure the manager sleeps exactly one
fixed `reconnect_interval` (no exponential growth, no cap logic), makes at
most one reconnection attempt, and on a connect failure transitions directly
to the terminal `error` state; `max_reconnect_attempts` is never consulted. -/
theorem reconnect_fixed_delay_single_attempt (cfg : ConnectionConfig)
    (tunnelFound connectFails registerFails : Bool) :
    (reconnectTunnel cfg tunnelFound connectFails registerFails).connectAttempts ≤ 1 ∧
    (reconnectTunnel cfg tunnelFound connectFails registerFails).sleptFor =
      (if tunnelFound then cfg.reconnectInterval else 0) ∧
    (tunnelFound = true → connectFails = true →
      (reconnectTunnel cfg tunnelFound connectFails registerFails).finalState =
        some TState.error) := by
  cases tunnelFound
  · cases connectFails <;> cases registerFails <;>
      exact ⟨Nat.zero_le 1, rfl, fun h1 _ => absurd h1 (by decide)⟩
  · cases connectFails
    · cases registerFails <;>
        exact ⟨Nat.le_refl 1, rfl, fun _ h2 => absurd h2 (by decide)⟩
    · cases registerFails <;> exact ⟨Nat.le_refl 1, rfl, fun _ _ => rfl⟩

/-- Witness for C9's amended theorem at the default configuration with a
failing connect. -/
theorem reconnect_fixed_delay_single_attempt_witness :
    (reconnectTunnel defaultConnectionConfig true true false).connectAttempts ≤ 1 ∧
    (reconnectTunnel defaultConnectionConfig true true false).sleptFor =
      (if true then defaultConnectionConfig.reconnectInterval else 0) ∧
    (reconnectTunnel defaultConnectionConfig true true false).finalState =
      some TState.error :=
  ⟨(reconnect_fixed_delay_single_attempt defaultConnectionConfig true true false).1,
    (reconnect_fixed_delay_single_attempt defaultConnectionConfig true true false).2.1,
    (reconnect_fixed_delay_single_attempt defaultConnectionConfig true true false).2.2
      rfl rfl⟩

end Shipitd
